import Mathlib

/-!
Verification of the batched PDF OCR pipeline of the
General-Journal-Terms-Extraction-Local repository: the batching decision and
the batch planning, splitting, retry and persistence loop of
`PDFExtractor._extract_with_ocr` / `PDFExtractor._extract_pdf_in_batches`
(src/file_processor.py), the task-polling loop of `XunfeiOCR.get_task_result`
(src/xunfei_ocr.py), and the relevant constants of src/config.py.

Modelling conventions: Python ints are `Int` (loop indices that Python only
ever runs over `range(n)` are `Nat`), the file-size float that only feeds a
comparison is `Rat`, fallible code returns `Except` or `Option`, and the
remote OCR service is an oracle `Nat → Nat → Option String` giving, per batch
and per attempt, either the raw text the service returned or `none` for a
raised error. All definitions are executable.
-/

namespace BatchOcr

/-- The batching decision of `PDFExtractor._extract_with_ocr`,
src/file_processor.py lines 366-369: `should_batch = batch_enabled and
((page_count > batch_threshold_pages or file_size_mb > batch_threshold_mb)
and page_count > 0)`. -/
def should_batch (batch_enabled : Bool) (page_count batch_threshold_pages : Int)
    (file_size_mb batch_threshold_mb : Rat) : Bool :=
  batch_enabled &&
    ((decide (page_count > batch_threshold_pages) || decide (file_size_mb > batch_threshold_mb))
      && decide (page_count > 0))

/-- The two execution modes of `_extract_with_ocr`: the batched loop, or one
whole-document call to the OCR extractor. -/
inductive OcrPath where
  | batched
  | single
deriving DecidableEq

/-- Mode selection at src/file_processor.py line 371 (`if should_batch`): the
batched path when `should_batch` is true, otherwise the whole document is
handed to `self.ocr_extractor.extract` in a single call (line 387). -/
def choose_ocr_path (batch_enabled : Bool) (page_count batch_threshold_pages : Int)
    (file_size_mb batch_threshold_mb : Rat) : OcrPath :=
  if should_batch batch_enabled page_count batch_threshold_pages file_size_mb batch_threshold_mb
  then .batched else .single

/-- Python `range(lo, hi)` over ints: empty whenever `hi ≤ lo`. -/
def pyRange (lo hi : Int) : List Int :=
  (List.range (hi - lo).toNat).map (fun k => lo + (k : Int))

/-- Batch count, src/file_processor.py line 465:
`num_batches = (total_pages + batch_size - 1) // batch_size`, Python floor
division (`Int.fdiv`). Meaningful only for `batch_size ≠ 0`: in Python a zero
divisor raises `ZeroDivisionError` at this line, which
`extract_pdf_in_batches` below models at its entry. -/
def num_batches (total_pages batch_size : Int) : Int :=
  (total_pages + batch_size - 1).fdiv batch_size

/-- Batch page-range start, line 481: `start_page = batch_idx * batch_size`. -/
def start_page (batch_size : Int) (batch_idx : Nat) : Int :=
  (batch_idx : Int) * batch_size

/-- Batch page-range end, line 482:
`end_page = min((batch_idx + 1) * batch_size, total_pages)`. -/
def end_page (total_pages batch_size : Int) (batch_idx : Nat) : Int :=
  min (((batch_idx : Int) + 1) * batch_size) total_pages

/-- The error the spec's taxonomy names `EmptyBatch`. Modelled from the spec:
the source (src/file_processor.py lines 492-505) defines no such error and no
code path below ever produces this constructor; it exists so that its absence
from the splitting behaviour can be stated. -/
inductive SplitError where
  | emptyBatch
deriving DecidableEq

/-- The sub-document written for one batch: the page numbers that were copied
into the `PdfWriter`, and the page numbers skipped with a logged warning. -/
structure SubDoc where
  pages : List Int
  warnings : List Int
deriving DecidableEq

/-- The page-copy loop of src/file_processor.py lines 494-505: every page of
`range(start_page, end_page)` whose copy succeeds (`copy_ok`) is added to the
sub-document; a page whose copy raises is logged and skipped (`continue`);
the writer is then saved unconditionally, so zero copied pages do not abort
the split. -/
def split_document (copy_ok : Int → Bool) (startPage endPage : Int) :
    Except SplitError SubDoc :=
  .ok { pages := (pyRange startPage endPage).filter copy_ok
      , warnings := (pyRange startPage endPage).filter (fun p => !copy_ok p) }

/-- Python `str.strip()`: the string with leading and trailing whitespace
removed. Extensionally this is `String.trim`, but the library's `trim` runs
on byte positions through well-founded recursion the kernel cannot evaluate,
so concrete runs are stated with this structurally recursive version. -/
def py_strip (s : String) : String :=
  ⟨((s.data.dropWhile Char.isWhitespace).reverse.dropWhile Char.isWhitespace).reverse⟩

/-- The text built for a successful whole-file OCR, src/xunfei_ocr.py
line 274: the provenance header followed by the stripped raw text. -/
def marked_pdf_text (file_name raw : String) : String :=
  "[扫描版PDF - " ++ file_name ++ "]\n" ++ py_strip raw

/-- `XunfeiOCRExtractor.extract` (src/xunfei_ocr.py lines 244-284) on a
`.pdf` input, given the raw text `raw` that `ocr_pdf` returned for the file:
raises `ValueError` when the text is blank (`not text or not text.strip()`,
lines 267-268), otherwise returns the one-element list holding the marked
text (line 274). -/
def xunfei_extract (file_name raw : String) : Except String (List String) :=
  if py_strip raw = "" then .error "PDF中未检测到有效文本"
  else .ok [marked_pdf_text file_name raw]

/-- Outcome of the per-batch retry loop of src/file_processor.py lines
510-602: the extracted texts when some attempt succeeded, the number of
attempts actually made, and the backoff delays slept (line 521), in order. -/
structure RetryOutcome where
  result : Option (List String)
  attempts : Nat
  sleeps : List Nat
deriving DecidableEq

/-- The retry loop `for retry_attempt in range(max_retries)` of lines
512-602, with `remaining` attempts left in the budget and `a` the index of
the next attempt: the loop sleeps `retry_delay` before every attempt except
the first (lines 514-521), stops at the first success (line 591), and gives
up (`result = none`) once the budget is exhausted. `attempt a` is what
attempt number `a` yields: `some` texts, or `none` for a raised error. -/
def retry_loop (attempt : Nat → Option (List String)) (retry_delay : Nat) :
    Nat → Nat → RetryOutcome
  | 0, _ => ⟨none, 0, []⟩
  | remaining + 1, a =>
      let pre : List Nat := if a = 0 then [] else [retry_delay]
      match attempt a with
      | some l => ⟨some l, 1, pre⟩
      | none =>
          let rest := retry_loop attempt retry_delay remaining (a + 1)
          ⟨rest.result, rest.attempts + 1, pre ++ rest.sleeps⟩

/-- One OCR attempt on batch `b` (src/file_processor.py line 532,
`self.ocr_extractor.extract(str(batch_pdf_path))`): the remote call - `some
raw` when the service returned text `raw` for this batch and attempt, `none`
when anything raised - composed with `XunfeiOCRExtractor.extract`. -/
def batch_attempt (oracle : Nat → Nat → Option String) (file_name : String)
    (b a : Nat) : Option (List String) :=
  (oracle b a).bind (fun raw => (xunfei_extract file_name raw).toOption)

/-- The per-batch provenance marker prepended at line 551:
`[批次 {batch_idx + 1}: 页{start_page + 1}-{end_page}]`. -/
def mark_text (b : Nat) (startPage endPage : Int) (t : String) : String :=
  "[批次 " ++ toString (b + 1) ++ ": 页" ++ toString (startPage + 1) ++ "-"
    ++ toString endPage ++ "]\n" ++ t

/-- The state `_extract_pdf_in_batches` threads through its batch loop.
`store` is the on-disk result file `{pdf_name}_batch_ocr.txt` as the ordered
list of per-batch sections appended and flushed at lines 555-577 (the fixed
header and delimiter text is elided, the per-batch texts are kept);
`allTexts` is the in-memory `all_texts` list; `succeeded` and `failed` are
the batch indices that resolved either way, in batch order; `attempts` holds
the number of OCR attempts each processed batch made, in batch order. -/
structure JobState where
  store : List (Nat × List String)
  allTexts : List String
  succeeded : List Nat
  failed : List Nat
  attempts : List Nat
deriving DecidableEq

/-- Job start, src/file_processor.py lines 442-456: `all_texts = []`, and any
pre-existing result file for the same document name (`prior`) is deleted
(lines 454-456), so the store starts empty whatever the prior file held. -/
def init_state (prior : List (Nat × List String)) : JobState :=
  { store := [], allTexts := [], succeeded := [], failed := [], attempts := [] }

/-- Body of the batch loop (lines 480-606) for batch `b`: run the retry loop;
on success, append the marked texts to `all_texts` (line 553), append the
batch's section to the result file and flush it (lines 555-574) before the
loop moves on, and record the batch as succeeded; on an exhausted retry
budget, record the batch as permanently failed and continue (lines 599-606). -/
def process_batch (oracle : Nat → Nat → Option String) (file_name : String)
    (total_pages batch_size : Int) (max_retries retry_delay : Nat)
    (s : JobState) (b : Nat) : JobState :=
  let o := retry_loop (batch_attempt oracle file_name b) retry_delay max_retries 0
  match o.result with
  | some l =>
      let marked := l.map
        (mark_text b (start_page batch_size b) (end_page total_pages batch_size b))
      { s with
        store := s.store ++ [(b, marked)]
        allTexts := s.allTexts ++ marked
        succeeded := s.succeeded ++ [b]
        attempts := s.attempts ++ [o.attempts] }
  | none =>
      { s with failed := s.failed ++ [b], attempts := s.attempts ++ [o.attempts] }

/-- The first `k` iterations of the batch loop, starting from the cleared
store. -/
def run_batches (oracle : Nat → Nat → Option String) (file_name : String)
    (total_pages batch_size : Int) (max_retries retry_delay : Nat)
    (prior : List (Nat × List String)) (k : Nat) : JobState :=
  (List.range k).foldl
    (process_batch oracle file_name total_pages batch_size max_retries retry_delay)
    (init_state prior)

/-- The whole batch loop, `for batch_idx in range(num_batches)` (line 480):
a Python `range` of a non-positive int is empty, hence `Int.toNat`. -/
def run_job (oracle : Nat → Nat → Option String) (file_name : String)
    (total_pages batch_size : Int) (max_retries retry_delay : Nat)
    (prior : List (Nat × List String)) : JobState :=
  run_batches oracle file_name total_pages batch_size max_retries retry_delay prior
    (num_batches total_pages batch_size).toNat

/-- Terminal errors of `_extract_pdf_in_batches`. `zeroDivision` is Python's
`ZeroDivisionError` raised by line 465 when `batch_size == 0`;
`allBatchesFailed` is the `ValueError("所有批次均处理失败...")` of line 616.
`invalidPlan` is modelled from the spec: the spec's error taxonomy names an
`InvalidPlan` validation error for `batch_size <= 0` or a negative page
count, but the source performs no such validation and no definition below
ever produces this constructor. -/
inductive BatchJobError where
  | zeroDivision
  | allBatchesFailed
  | invalidPlan
deriving DecidableEq

/-- The completion banner's count of successful batches, line 623:
`len(all_texts)`. -/
def banner_count (s : JobState) : Nat := s.allTexts.length

/-- The final aggregated artifact (lines 618-647): the result file read back,
i.e. all persisted sections in order followed by the completion banner with
its successful-batch count and the total page count. -/
def aggregate_text (total_pages : Int) (s : JobState) : String :=
  String.intercalate "\n\n" (s.store.flatMap Prod.snd)
    ++ "\n✅ 所有批次处理完成\n   - 成功批次: " ++ toString (banner_count s)
    ++ "\n   - 总页数: " ++ toString total_pages

/-- `PDFExtractor._extract_pdf_in_batches` (src/file_processor.py lines
423-653) with the remote OCR behaviour abstracted as `oracle`: a zero
`batch_size` raises at the planning line 465 before any batch runs; then the
batch loop runs, and if `all_texts` ends empty the job raises the
all-batches-failed `ValueError` (lines 615-616); otherwise the aggregated
text is returned as a one-element list (lines 643-647). -/
def extract_pdf_in_batches (oracle : Nat → Nat → Option String) (file_name : String)
    (total_pages batch_size : Int) (max_retries retry_delay : Nat)
    (prior : List (Nat × List String)) : Except BatchJobError (List String) :=
  if batch_size = 0 then .error .zeroDivision
  else
    let s := run_job oracle file_name total_pages batch_size max_retries retry_delay prior
    if s.allTexts.isEmpty then .error .allBatchesFailed
    else .ok [aggregate_text total_pages s]

/-- Whether batch `b` resolves successfully under the retry loop. -/
def batch_succeeds (oracle : Nat → Nat → Option String) (file_name : String)
    (max_retries retry_delay : Nat) (b : Nat) : Bool :=
  ((retry_loop (batch_attempt oracle file_name b) retry_delay max_retries 0).result).isSome

/-- The marked texts batch `b` contributes when it succeeds (empty when it
fails). -/
def batch_marked (oracle : Nat → Nat → Option String) (file_name : String)
    (total_pages batch_size : Int) (max_retries retry_delay : Nat) (b : Nat) : List String :=
  (((retry_loop (batch_attempt oracle file_name b) retry_delay max_retries 0).result).getD []).map
    (mark_text b (start_page batch_size b) (end_page total_pages batch_size b))

/-- The number of OCR attempts batch `b` makes. -/
def batch_attempt_count (oracle : Nat → Nat → Option String) (file_name : String)
    (max_retries retry_delay : Nat) (b : Nat) : Nat :=
  (retry_loop (batch_attempt oracle file_name b) retry_delay max_retries 0).attempts

/-- src/xunfei_ocr.py line 128: `check_interval = 5` - a hard-coded local,
not read from any configuration. -/
def check_interval : Nat := 5

/-- src/xunfei_ocr.py line 108: the default of the `max_wait_time` parameter
of `get_task_result`, 300 seconds. `ocr_pdf` (line 219) calls
`get_task_result(task_id)` without a timeout argument, so this default is the
effective overall timeout of every recognition task. -/
def default_max_wait_time : Nat := 300

/-- src/config.py line 61, `BATCH_CONFIG["check_interval"] = 5`: the only
configured check interval in the repository (it belongs to the GPT batch
pipeline; the OCR module never reads it). -/
def batch_config_check_interval : Nat := 5

/-- src/config.py line 62, `BATCH_CONFIG["max_wait_time"] = 3600`: the only
configured maximum wait in the repository (GPT batch pipeline; the OCR module
never reads it). -/
def batch_config_max_wait_time : Nat := 3600

/-- Errors of the polling loop: the `TimeoutError` of src/xunfei_ocr.py line
135 (the spec's `TaskTimeout`), and the `RuntimeError` for a remote-reported
failed task, line 165. -/
inductive PollError where
  | taskTimeout
  | taskFailed
deriving DecidableEq

/-- The polling loop of `XunfeiOCR.get_task_result` (src/xunfei_ocr.py lines
127-173), with network latency abstracted away: before the `k`-th poll the
elapsed time is `check_interval * k` (one `time.sleep(check_interval)` per
earlier non-terminal poll). Each iteration first checks
`time.time() - start_time > max_wait_time` (line 134) and raises
`TimeoutError`; otherwise it reads the task status: `"3"` downloads the
result, `"4"` raises for a failed task, and anything else - processing (`"2"`),
an unknown status, or a network error while polling - sleeps `check_interval`
seconds and polls again. -/
def get_task_result_loop (status_at : Nat → String) (download : String)
    (max_wait_time : Nat) (k : Nat) : Except PollError String :=
  if h : check_interval * k > max_wait_time then .error .taskTimeout
  else
    match status_at k with
    | "3" => .ok download
    | "4" => .error .taskFailed
    | _ => get_task_result_loop status_at download max_wait_time (k + 1)
termination_by max_wait_time + 1 - check_interval * k
decreasing_by
  simp only [check_interval] at h ⊢
  omega

/-- The wait `XunfeiOCR.ocr_pdf` performs (src/xunfei_ocr.py line 219):
`get_task_result(task_id)` with no timeout argument, so the hard-coded
default of 300 seconds applies. -/
def ocr_pdf_poll (status_at : Nat → String) (download : String) :
    Except PollError String :=
  get_task_result_loop status_at download default_max_wait_time 0

/-- The oracle of the C5 counterexample run: batch 0 raises on every attempt,
every other batch returns the text "x" at once. -/
def first_batch_fails_oracle : Nat → Nat → Option String :=
  fun b _ => if b = 0 then none else some "x"

/-! ## Helper lemmas -/

theorem should_batch_iff (e : Bool) (P tp : Int) (S ts : Rat) :
    should_batch e P tp S ts = true ↔ e = true ∧ 0 < P ∧ (tp < P ∨ ts < S) := by
  simp only [should_batch, Bool.and_eq_true, Bool.or_eq_true, decide_eq_true_eq, gt_iff_lt]
  tauto

/-! ## C1: the batching decision rule -/

/-- C1 (confirmed): the batched OCR path is selected if and only if batching
is enabled, the page count is positive, and the page count exceeds the page
threshold or the file size in MB exceeds the size threshold; in every other
case the mode is the single whole-document OCR call. -/
theorem batching_decision_rule (e : Bool) (P tp : Int) (S ts : Rat) :
    (choose_ocr_path e P tp S ts = .batched ↔
        e = true ∧ 0 < P ∧ (tp < P ∨ ts < S)) ∧
    (choose_ocr_path e P tp S ts = .single ↔
        ¬(e = true ∧ 0 < P ∧ (tp < P ∨ ts < S))) := by
  have hs := should_batch_iff e P tp S ts
  cases h : should_batch e P tp S ts
  · rw [h] at hs
    simp only [choose_ocr_path, h, if_false]
    constructor
    · simp [← hs]
    · simp [← hs]
  · rw [h] at hs
    simp only [choose_ocr_path, h, if_true]
    constructor
    · simp [← hs]
    · simp [← hs]

/-! ## C8: the page-copy loop of the document splitter -/

/-- C8 counterexample: a batch page range where no page can be copied still
produces a sub-document - zero pages, both pages warned - and submits it,
rather than failing; in particular the split does not fail with the spec's
EmptyBatch error even though zero pages were copied. -/
theorem empty_batch_counterexample :
    split_document (fun _ => false) 0 2 = .ok ⟨[], [0, 1]⟩ ∧
    split_document (fun _ => false) 0 2 ≠ .error .emptyBatch := by
  have h1 : split_document (fun _ => false) 0 2 = .ok ⟨[], [0, 1]⟩ := rfl
  refine ⟨h1, ?_⟩
  rw [h1]
  intro h
  exact Except.noConfusion h

/-- C8 (amended): every page that cannot be copied is skipped with a recorded
warning rather than aborting the batch, but the split itself never fails: it
always returns a sub-document holding the copyable pages in order and warning
exactly the uncopyable ones, even when zero pages could be copied; there is
no EmptyBatch failure. -/
theorem split_skips_and_never_fails (copy_ok : Int → Bool) (s e : Int) :
    ∃ d : SubDoc, split_document copy_ok s e = .ok d ∧
      d.pages = (pyRange s e).filter copy_ok ∧
      (∀ p ∈ pyRange s e, copy_ok p = false → p ∈ d.warnings) ∧
      (∀ p ∈ d.warnings, copy_ok p = false) ∧
      (d.pages ++ d.warnings).Perm (pyRange s e) := by
  refine ⟨_, rfl, rfl, ?_, ?_, ?_⟩
  · intro p hp hno
    simp only [split_document, List.mem_filter, Bool.not_eq_true']
    exact ⟨hp, hno⟩
  · intro p hp
    simp only [split_document, List.mem_filter, Bool.not_eq_true'] at hp
    exact hp.2
  · exact List.filter_append_perm _ _

/-! ## C2: the batch plan partitions the page range -/

/-- C2 (confirmed): for a positive page count `P` and batch size, the plan
has exactly ceil(P / batch_size) batches - the planned count `N` satisfies
the ceiling's characterisation `batch_size * (N - 1) < P ≤ batch_size * N`
and is non-negative - batch `b` covers the half-open range
`[b*batch_size, min((b+1)*batch_size, P))`, consecutive ranges are
contiguous, every planned range is non-empty, and every page `0 ≤ p < P`
lies in exactly one planned batch's range. -/
theorem batch_plan_partition (P bs : Int) (hP : 0 < P) (hbs : 0 < bs) :
    bs * (num_batches P bs - 1) < P ∧ P ≤ bs * num_batches P bs ∧
    (((num_batches P bs).toNat : Int) = num_batches P bs) ∧
    (∀ b : Nat, b + 1 < (num_batches P bs).toNat →
        end_page P bs b = start_page bs (b + 1)) ∧
    (∀ b : Nat, b < (num_batches P bs).toNat →
        start_page bs b < end_page P bs b) ∧
    (∀ p : Int, 0 ≤ p → p < P →
        ∃! b : Nat, b < (num_batches P bs).toNat ∧
          start_page bs b ≤ p ∧ p < end_page P bs b) := by
  have hfd : num_batches P bs = (P + bs - 1) / bs := by
    unfold num_batches
    exact Int.fdiv_eq_ediv _ hbs.le
  have hring1 : ((P + bs - 1) / bs + 1) * bs = (P + bs - 1) / bs * bs + bs := by ring
  have hup : P ≤ bs * num_batches P bs := by
    have h1 : P + bs - 1 < ((P + bs - 1) / bs + 1) * bs :=
      Int.lt_ediv_add_one_mul_self _ hbs
    rw [hfd, mul_comm]
    linarith [h1, hring1]
  have hlow : bs * (num_batches P bs - 1) < P := by
    have h1 : (P + bs - 1) / bs * bs ≤ P + bs - 1 := Int.ediv_mul_le _ hbs.ne'
    have h2 : bs * ((P + bs - 1) / bs - 1) = (P + bs - 1) / bs * bs - bs := by ring
    rw [hfd]
    linarith [h1, h2]
  have hN1 : 1 ≤ num_batches P bs := by
    by_contra hcon
    push_neg at hcon
    have hle0 : num_batches P bs ≤ 0 := by omega
    have : bs * num_batches P bs ≤ 0 := mul_nonpos_of_nonneg_of_nonpos hbs.le hle0
    linarith
  have htn : (((num_batches P bs).toNat : Int)) = num_batches P bs :=
    Int.toNat_of_nonneg (by linarith)
  have hrange_lt : ∀ z : Int, z ≤ num_batches P bs - 1 → z * bs < P := by
    intro z hz
    have h1 : z * bs ≤ (num_batches P bs - 1) * bs :=
      mul_le_mul_of_nonneg_right hz hbs.le
    have h2 : (num_batches P bs - 1) * bs = bs * (num_batches P bs - 1) := by ring
    linarith
  have hcontig : ∀ b : Nat, b + 1 < (num_batches P bs).toNat →
      end_page P bs b = start_page bs (b + 1) := by
    intro b hb
    have hble : (b : Int) + 1 ≤ num_batches P bs - 1 := by omega
    have hle : ((b : Int) + 1) * bs ≤ P := (hrange_lt _ hble).le
    unfold end_page start_page
    rw [min_eq_left hle]
    push_cast
    ring
  have hnonempty : ∀ b : Nat, b < (num_batches P bs).toNat →
      start_page bs b < end_page P bs b := by
    intro b hb
    have hble : (b : Int) ≤ num_batches P bs - 1 := by omega
    have hlt : (b : Int) * bs < P := hrange_lt _ hble
    unfold start_page end_page
    apply lt_min
    · nlinarith
    · exact hlt
  refine ⟨hlow, hup, htn, hcontig, hnonempty, ?_⟩
  intro p hp0 hpP
  have hq0 : 0 ≤ p / bs := Int.ediv_nonneg hp0 hbs.le
  have hqlow : p / bs * bs ≤ p := Int.ediv_mul_le _ hbs.ne'
  have hqhigh : p < (p / bs + 1) * bs := Int.lt_ediv_add_one_mul_self _ hbs
  have hqN : p / bs < num_batches P bs := by
    rw [Int.ediv_lt_iff_lt_mul hbs]
    have : bs * num_batches P bs = num_batches P bs * bs := mul_comm _ _
    linarith
  have hcast : ((p / bs).toNat : Int) = p / bs := Int.toNat_of_nonneg hq0
  refine ⟨(p / bs).toNat, ⟨?_, ?_, ?_⟩, ?_⟩
  · omega
  · unfold start_page
    rw [hcast]
    exact hqlow
  · unfold end_page
    apply lt_min
    · rw [hcast]
      exact hqhigh
    · exact hpP
  · intro y hy
    obtain ⟨hyN, hys, hye⟩ := hy
    unfold start_page at hys
    unfold end_page at hye
    have hye1 : p < ((y : Int) + 1) * bs := (lt_min_iff.mp hye).1
    have h1 : (y : Int) ≤ p / bs := by
      rw [Int.le_ediv_iff_mul_le hbs]
      exact hys
    have h2 : p / bs < (y : Int) + 1 := by
      rw [Int.ediv_lt_iff_lt_mul hbs]
      exact hye1
    omega

/-- C2 witness: the plan for a 120-page document with 20-page batches. -/
theorem batch_plan_partition_witness :
    (0 : Int) < 120 ∧ (0 : Int) < 20 ∧
    (∀ p : Int, 0 ≤ p → p < 120 →
        ∃! b : Nat, b < (num_batches 120 20).toNat ∧
          start_page 20 b ≤ p ∧ p < end_page 120 20 b) :=
  ⟨by norm_num, by norm_num,
    (batch_plan_partition 120 20 (by norm_num) (by norm_num)).2.2.2.2.2⟩

/-! ## C9: the polling loop's interval and timeout -/

theorem get_task_result_times_out (status_at : Nat → String) (download : String)
    (max_wait_time : Nat)
    (h : ∀ k, check_interval * k ≤ max_wait_time →
        status_at k ≠ "3" ∧ status_at k ≠ "4") :
    ∀ k, get_task_result_loop status_at download max_wait_time k =
      .error .taskTimeout := by
  have main : ∀ n k, max_wait_time + 1 - check_interval * k ≤ n →
      get_task_result_loop status_at download max_wait_time k = .error .taskTimeout := by
    intro n
    induction n with
    | zero =>
        intro k hk
        rw [get_task_result_loop]
        rw [dif_pos]
        simp only [check_interval] at hk ⊢
        omega
    | succ n ih =>
        intro k hk
        rw [get_task_result_loop]
        split
        · rfl
        · rename_i hle
          have hterm := h k (by omega)
          split
          · rename_i heq
            exact absurd heq hterm.1
          · rename_i heq
            exact absurd heq hterm.2
          · apply ih
            simp only [check_interval] at hk hle ⊢
            omega
  intro k
  exact main (max_wait_time + 1 - check_interval * k) k le_rfl

/-- C9 (amended): `ocr_pdf` waits for the recognition task with the
hard-coded 5-second check interval and the hard-coded 300-second default
timeout (it passes no timeout argument, and neither value is read from any
configuration); a task that reports no terminal status within that window
fails with the timeout error (the spec's TaskTimeout). -/
theorem poll_interval_and_timeout (status_at : Nat → String) (download : String)
    (h : ∀ k, check_interval * k ≤ default_max_wait_time →
        status_at k ≠ "3" ∧ status_at k ≠ "4") :
    ocr_pdf_poll status_at download = .error .taskTimeout ∧
    check_interval = 5 ∧ default_max_wait_time = 300 :=
  ⟨get_task_result_times_out status_at download default_max_wait_time h 0, rfl, rfl⟩

/-- C9 witness: a task that never leaves the processing status times out. -/
theorem poll_interval_and_timeout_witness :
    ocr_pdf_poll (fun _ => "2") "t" = .error .taskTimeout ∧
    check_interval = 5 ∧ default_max_wait_time = 300 :=
  poll_interval_and_timeout (fun _ => "2") "t" (by intro k hk; simp)

/-- C9 counterexample: a task that first reports Done at the 80th poll -
elapsed time 400 seconds, well within the repository's only configured
maximum wait, `BATCH_CONFIG["max_wait_time"] = 3600` - nevertheless fails
with the timeout error, because the loop's effective overall timeout is the
hard-coded 300-second default, not a configured value. -/
theorem poll_timeout_counterexample :
    ocr_pdf_poll (fun k => if 80 ≤ k then "3" else "2") "t" = .error .taskTimeout ∧
    check_interval * 80 ≤ batch_config_max_wait_time ∧
    default_max_wait_time = 300 ∧ batch_config_max_wait_time = 3600 := by
  refine ⟨?_, by decide, rfl, rfl⟩
  apply get_task_result_times_out
  intro k hk
  simp only [check_interval, default_max_wait_time] at hk
  have : ¬ 80 ≤ k := by omega
  simp [this]

/-! ## Retry-loop and executor lemmas -/

theorem retry_loop_all_fail (attempt : Nat → Option (List String)) (d : Nat)
    (hfail : ∀ a, attempt a = none) :
    ∀ r a, retry_loop attempt d r a =
      ⟨none, r, List.replicate (if a = 0 then r - 1 else r) d⟩ := by
  intro r
  induction r with
  | zero =>
      intro a
      cases a <;> simp [retry_loop]
  | succ r ih =>
      intro a
      simp only [retry_loop, hfail a]
      rw [ih (a + 1)]
      cases a with
      | zero => simp
      | succ a => simp [List.replicate_succ]

theorem retry_loop_attempts_pos (attempt : Nat → Option (List String)) (d : Nat) :
    ∀ r a, 1 ≤ r → 1 ≤ (retry_loop attempt d r a).attempts := by
  intro r a hr
  cases r with
  | zero => omega
  | succ r =>
      cases hx : attempt a <;> simp [retry_loop, hx]

theorem retry_loop_result_some (attempt : Nat → Option (List String)) (d : Nat) :
    ∀ r a l, (retry_loop attempt d r a).result = some l → ∃ j, attempt j = some l := by
  intro r
  induction r with
  | zero =>
      intro a l h
      simp [retry_loop] at h
  | succ r ih =>
      intro a l h
      simp only [retry_loop] at h
      cases hx : attempt a with
      | some l2 =>
          rw [hx] at h
          simp at h
          exact ⟨a, by rw [hx, h]⟩
      | none =>
          rw [hx] at h
          simp at h
          exact ih (a + 1) l h

theorem batch_attempt_some (oracle : Nat → Nat → Option String) (file_name : String)
    (b a : Nat) (l : List String) (h : batch_attempt oracle file_name b a = some l) :
    ∃ raw, oracle b a = some raw ∧ py_strip raw ≠ "" ∧ l = [marked_pdf_text file_name raw] := by
  unfold batch_attempt at h
  cases ho : oracle b a with
  | none =>
      rw [ho] at h
      simp at h
  | some raw =>
      rw [ho] at h
      simp only [Option.some_bind] at h
      unfold xunfei_extract at h
      by_cases ht : py_strip raw = ""
      · rw [if_pos ht] at h
        simp [Except.toOption] at h
      · rw [if_neg ht] at h
        simp [Except.toOption] at h
        exact ⟨raw, rfl, ht, h.symm⟩

theorem marked_pdf_text_ne_empty (f raw : String) : marked_pdf_text f raw ≠ "" := by
  intro h
  have hlen := congrArg String.length h
  simp only [marked_pdf_text, String.length_append] at hlen
  have h1 : (0 : Nat) < "[扫描版PDF - ".length := by decide
  have h2 : "".length = 0 := rfl
  omega

theorem flatMap_length_of_forall_one {α β : Type} (f : α → List β) :
    ∀ l : List α, (∀ b ∈ l, (f b).length = 1) → (l.flatMap f).length = l.length := by
  intro l
  induction l with
  | nil => simp
  | cons x xs ih =>
      intro h
      simp only [List.flatMap_cons, List.length_append, List.length_cons]
      rw [h x (by simp), ih (fun b hb => h b (by simp [hb]))]
      omega

theorem process_batch_eq (oracle : Nat → Nat → Option String) (file_name : String)
    (total_pages batch_size : Int) (max_retries retry_delay : Nat)
    (s : JobState) (b : Nat) :
    process_batch oracle file_name total_pages batch_size max_retries retry_delay s b =
      if batch_succeeds oracle file_name max_retries retry_delay b then
        { s with
          store := s.store ++
            [(b, batch_marked oracle file_name total_pages batch_size max_retries retry_delay b)]
          allTexts := s.allTexts ++
            batch_marked oracle file_name total_pages batch_size max_retries retry_delay b
          succeeded := s.succeeded ++ [b]
          attempts := s.attempts ++
            [batch_attempt_count oracle file_name max_retries retry_delay b] }
      else
        { s with
          failed := s.failed ++ [b]
          attempts := s.attempts ++
            [batch_attempt_count oracle file_name max_retries retry_delay b] } := by
  simp only [process_batch, batch_succeeds, batch_marked, batch_attempt_count]
  cases hres : (retry_loop (batch_attempt oracle file_name b) retry_delay max_retries 0).result with
  | some l => simp
  | none => simp

theorem run_batches_closed_form (oracle : Nat → Nat → Option String) (file_name : String)
    (total_pages batch_size : Int) (max_retries retry_delay : Nat)
    (prior : List (Nat × List String)) :
    ∀ k, run_batches oracle file_name total_pages batch_size max_retries retry_delay prior k =
      { store := ((List.range k).filter
            (batch_succeeds oracle file_name max_retries retry_delay)).map
            (fun b =>
              (b, batch_marked oracle file_name total_pages batch_size max_retries retry_delay b))
        allTexts := ((List.range k).filter
            (batch_succeeds oracle file_name max_retries retry_delay)).flatMap
            (batch_marked oracle file_name total_pages batch_size max_retries retry_delay)
        succeeded := (List.range k).filter
            (batch_succeeds oracle file_name max_retries retry_delay)
        failed := (List.range k).filter
            (fun b => !(batch_succeeds oracle file_name max_retries retry_delay b))
        attempts := (List.range k).map
            (batch_attempt_count oracle file_name max_retries retry_delay) } := by
  intro k
  induction k with
  | zero => rfl
  | succ k ih =>
      have hstep :
          run_batches oracle file_name total_pages batch_size max_retries retry_delay prior (k + 1)
            = process_batch oracle file_name total_pages batch_size max_retries retry_delay
                (run_batches oracle file_name total_pages batch_size max_retries retry_delay prior k)
                k := by
        unfold run_batches
        rw [List.range_succ, List.foldl_append]
        rfl
      rw [hstep, ih, process_batch_eq]
      by_cases hb : batch_succeeds oracle file_name max_retries retry_delay k = true
      · simp [hb, List.range_succ, List.filter_append, List.filter_cons, List.map_append,
          List.flatMap_append]
      · have hb2 : batch_succeeds oracle file_name max_retries retry_delay k = false := by
          simpa using hb
        simp [hb2, List.range_succ, List.filter_append, List.filter_cons, List.map_append,
          List.flatMap_append]

theorem run_job_allTexts_length (oracle : Nat → Nat → Option String) (file_name : String)
    (total_pages batch_size : Int) (max_retries retry_delay : Nat)
    (prior : List (Nat × List String)) :
    (run_job oracle file_name total_pages batch_size max_retries retry_delay prior).allTexts.length
      = (run_job oracle file_name total_pages batch_size max_retries retry_delay prior).succeeded.length := by
  unfold run_job
  rw [run_batches_closed_form]
  apply flatMap_length_of_forall_one
  intro b hb
  have hp : batch_succeeds oracle file_name max_retries retry_delay b = true :=
    (List.mem_filter.mp hb).2
  unfold batch_succeeds at hp
  unfold batch_marked
  cases hres : (retry_loop (batch_attempt oracle file_name b) retry_delay max_retries 0).result with
  | none =>
      rw [hres] at hp
      simp at hp
  | some l =>
      obtain ⟨j, hj⟩ := retry_loop_result_some _ _ _ _ _ hres
      obtain ⟨raw, _, _, hl⟩ := batch_attempt_some _ _ _ _ _ hj
      simp [hl]

/-! ## C3: the per-batch retry bound -/

/-- C3 (confirmed): a batch whose every attempt fails with an ordinary
(caught) error makes exactly `max_retries` attempts - never more - sleeping
the fixed `retry_delay` before each of the `max_retries - 1` retries and
before nothing else, ends without a result, and is recorded as permanently
failed in any job that plans it. -/
theorem retry_bound_exhaustion (oracle : Nat → Nat → Option String) (file_name : String)
    (b max_retries retry_delay : Nat) (hm : 1 ≤ max_retries)
    (hfail : ∀ a, batch_attempt oracle file_name b a = none) :
    batch_attempt_count oracle file_name max_retries retry_delay b = max_retries ∧
    (retry_loop (batch_attempt oracle file_name b) retry_delay max_retries 0).result = none ∧
    (retry_loop (batch_attempt oracle file_name b) retry_delay max_retries 0).sleeps
      = List.replicate (max_retries - 1) retry_delay ∧
    ∀ total_pages batch_size : Int, ∀ prior : List (Nat × List String),
      b < (num_batches total_pages batch_size).toNat →
      b ∈ (run_job oracle file_name total_pages batch_size max_retries retry_delay prior).failed := by
  have h := retry_loop_all_fail (batch_attempt oracle file_name b) retry_delay hfail max_retries 0
  refine ⟨?_, ?_, ?_, ?_⟩
  · rw [batch_attempt_count, h]
  · rw [h]
  · rw [h]
    simp
  · intro total_pages batch_size prior hb
    unfold run_job
    rw [run_batches_closed_form]
    simp only [List.mem_filter, List.mem_range]
    refine ⟨hb, ?_⟩
    simp [batch_succeeds, h]

/-- C3 witness: with a remote service that raises on every call and a retry
budget of 3 with a 2-second delay, a batch makes exactly 3 attempts, sleeps
twice, and is recorded as failed wherever it is planned. -/
theorem retry_bound_exhaustion_witness :
    batch_attempt_count (fun _ _ => none) "f" 3 2 0 = 3 ∧
    (retry_loop (batch_attempt (fun _ _ => none) "f" 0) 2 3 0).result = none ∧
    (retry_loop (batch_attempt (fun _ _ => none) "f" 0) 2 3 0).sleeps = List.replicate 2 2 ∧
    ∀ total_pages batch_size : Int, ∀ prior : List (Nat × List String),
      0 < (num_batches total_pages batch_size).toNat →
      0 ∈ (run_job (fun _ _ => none) "f" total_pages batch_size 3 2 prior).failed :=
  retry_bound_exhaustion (fun _ _ => none) "f" 0 3 2 (by norm_num) (fun _ => rfl)

/-! ## C4: permanent failure never aborts the job -/

/-- C4 (confirmed): one batch's permanent failure never aborts the job -
every planned batch is attempted at least once, no batch is both succeeded
and failed, and the succeeded and failed index lists together are a
permutation of all planned batch indices, covering them exactly once. -/
theorem failure_isolation (oracle : Nat → Nat → Option String) (file_name : String)
    (total_pages batch_size : Int) (max_retries retry_delay : Nat)
    (prior : List (Nat × List String)) (hm : 1 ≤ max_retries) :
    ((run_job oracle file_name total_pages batch_size max_retries retry_delay prior).succeeded ++
        (run_job oracle file_name total_pages batch_size max_retries retry_delay prior).failed).Perm
      (List.range (num_batches total_pages batch_size).toNat) ∧
    ((run_job oracle file_name total_pages batch_size max_retries retry_delay prior).succeeded ++
        (run_job oracle file_name total_pages batch_size max_retries retry_delay prior).failed).Nodup ∧
    (∀ b, b ∈ (run_job oracle file_name total_pages batch_size max_retries retry_delay prior).succeeded →
        b ∉ (run_job oracle file_name total_pages batch_size max_retries retry_delay prior).failed) ∧
    (run_job oracle file_name total_pages batch_size max_retries retry_delay prior).attempts.length
      = (num_batches total_pages batch_size).toNat ∧
    (∀ a ∈ (run_job oracle file_name total_pages batch_size max_retries retry_delay prior).attempts,
        1 ≤ a) := by
  unfold run_job
  rw [run_batches_closed_form]
  have hperm :
      (((List.range (num_batches total_pages batch_size).toNat).filter
          (batch_succeeds oracle file_name max_retries retry_delay)) ++
        ((List.range (num_batches total_pages batch_size).toNat).filter
          (fun b => !(batch_succeeds oracle file_name max_retries retry_delay b)))).Perm
        (List.range (num_batches total_pages batch_size).toNat) :=
    List.filter_append_perm _ _
  refine ⟨hperm, hperm.nodup_iff.mpr (List.nodup_range _), ?_, ?_, ?_⟩
  · intro b hbs hbf
    have h1 := (List.mem_filter.mp hbs).2
    have h2 := (List.mem_filter.mp hbf).2
    rw [h1] at h2
    simp at h2
  · simp
  · intro a ha
    simp only [List.mem_map] at ha
    obtain ⟨b, _, hba⟩ := ha
    rw [← hba]
    exact retry_loop_attempts_pos _ _ _ _ hm

/-- C4 witness: a two-batch job where batch 0 always fails and batch 1
succeeds still classifies both batches, exactly once each. -/
theorem failure_isolation_witness :
    1 ≤ 1 ∧
    (((run_job first_batch_fails_oracle "f" 40 20 1 0 []).succeeded ++
        (run_job first_batch_fails_oracle "f" 40 20 1 0 []).failed).Perm
      (List.range (num_batches 40 20).toNat) ∧
    ((run_job first_batch_fails_oracle "f" 40 20 1 0 []).succeeded ++
        (run_job first_batch_fails_oracle "f" 40 20 1 0 []).failed).Nodup ∧
    (∀ b, b ∈ (run_job first_batch_fails_oracle "f" 40 20 1 0 []).succeeded →
        b ∉ (run_job first_batch_fails_oracle "f" 40 20 1 0 []).failed) ∧
    (run_job first_batch_fails_oracle "f" 40 20 1 0 []).attempts.length
      = (num_batches 40 20).toNat ∧
    (∀ a ∈ (run_job first_batch_fails_oracle "f" 40 20 1 0 []).attempts, 1 ≤ a)) :=
  ⟨le_refl 1, failure_isolation first_batch_fails_oracle "f" 40 20 1 0 [] (le_refl 1)⟩

/-! ## C5: what the store holds after each batch -/

/-- C5 counterexample: two planned batches, batch 0 permanently fails, batch
1 succeeds; after the successful batch 1 the store holds only batch 1's
result, not "the results for batches 0..1 in order" that the claim asserts. -/
theorem store_after_success_counterexample :
    1 ∈ (run_batches first_batch_fails_oracle "f" 40 20 1 0 [] 2).succeeded ∧
    (run_batches first_batch_fails_oracle "f" 40 20 1 0 [] 2).store.map Prod.fst = [1] ∧
    0 ∉ (run_batches first_batch_fails_oracle "f" 40 20 1 0 [] 2).store.map Prod.fst := by
  refine ⟨?_, ?_, ?_⟩ <;> decide

/-- C5 (amended): the store starts cleared regardless of any pre-existing
result file for the same document, each successful batch's section is
appended and flushed before the loop proceeds, and after the loop has
processed batches 0..k-1 the store holds exactly the results of the batches
among them that succeeded, one record per batch, in increasing batch order -
in particular the results of all of batches 0..k-1, in order, when none of
them permanently failed. (The claim's unconditional "results for batches
0..i" fails when an earlier batch permanently failed: see the
counterexample.) -/
theorem store_holds_successes_in_order (oracle : Nat → Nat → Option String)
    (file_name : String) (total_pages batch_size : Int) (max_retries retry_delay : Nat)
    (prior : List (Nat × List String)) (k : Nat) :
    run_batches oracle file_name total_pages batch_size max_retries retry_delay prior k =
      run_batches oracle file_name total_pages batch_size max_retries retry_delay [] k ∧
    (run_batches oracle file_name total_pages batch_size max_retries retry_delay prior k).store =
      ((List.range k).filter (batch_succeeds oracle file_name max_retries retry_delay)).map
        (fun b =>
          (b, batch_marked oracle file_name total_pages batch_size max_retries retry_delay b)) ∧
    ((∀ b, b < k → batch_succeeds oracle file_name max_retries retry_delay b = true) →
      (run_batches oracle file_name total_pages batch_size max_retries retry_delay prior k).store.map
          Prod.fst
        = List.range k) := by
  refine ⟨rfl, ?_, ?_⟩
  · rw [run_batches_closed_form]
  · intro hall
    rw [run_batches_closed_form]
    have hfull : (List.range k).filter (batch_succeeds oracle file_name max_retries retry_delay)
        = List.range k :=
      List.filter_eq_self.mpr (fun b hb => hall b (List.mem_range.mp hb))
    have hcomp : (Prod.fst ∘ fun b : Nat =>
        (b, batch_marked oracle file_name total_pages batch_size max_retries retry_delay b))
        = id := rfl
    rw [hfull, List.map_map, hcomp, List.map_id]

/-! ## C6: all-failed is fatal, partial success is not -/

/-- C6 (confirmed): with a nonzero batch size, the batched job raises the
all-batches-failed error exactly when no batch succeeded - producing no
aggregated text - and otherwise completes normally, returning the single
aggregated text while the permanently failed batches stay recorded in the
job state instead of being raised. -/
theorem all_failed_or_completes (oracle : Nat → Nat → Option String) (file_name : String)
    (total_pages batch_size : Int) (max_retries retry_delay : Nat)
    (prior : List (Nat × List String)) (hbs : batch_size ≠ 0) :
    ((run_job oracle file_name total_pages batch_size max_retries retry_delay prior).succeeded = [] →
      extract_pdf_in_batches oracle file_name total_pages batch_size max_retries retry_delay prior
        = .error .allBatchesFailed) ∧
    ((run_job oracle file_name total_pages batch_size max_retries retry_delay prior).succeeded ≠ [] →
      extract_pdf_in_batches oracle file_name total_pages batch_size max_retries retry_delay prior
        = .ok [aggregate_text total_pages
            (run_job oracle file_name total_pages batch_size max_retries retry_delay prior)]) := by
  have hlen := run_job_allTexts_length oracle file_name total_pages batch_size max_retries
    retry_delay prior
  constructor
  · intro hsucc
    have hAT : (run_job oracle file_name total_pages batch_size max_retries retry_delay
        prior).allTexts = [] := by
      rw [← List.length_eq_zero, hlen, hsucc]
      rfl
    unfold extract_pdf_in_batches
    rw [if_neg hbs]
    simp only [hAT, List.isEmpty_nil, if_true]
  · intro hsucc
    have hAT : (run_job oracle file_name total_pages batch_size max_retries retry_delay
        prior).allTexts ≠ [] := by
      intro h0
      apply hsucc
      rw [← List.length_eq_zero, ← hlen, h0]
      rfl
    unfold extract_pdf_in_batches
    rw [if_neg hbs]
    cases hcase : (run_job oracle file_name total_pages batch_size max_retries retry_delay
        prior).allTexts with
    | nil => exact absurd hcase hAT
    | cons x xs =>
        simp only [hcase]
        rfl

/-- C6 witness: every batch failing yields the all-batches-failed error. -/
theorem all_failed_or_completes_witness :
    extract_pdf_in_batches (fun _ _ => none) "f" 40 20 1 0 [] = .error .allBatchesFailed :=
  (all_failed_or_completes (fun _ _ => none) "f" 40 20 1 0 [] (by decide)).1 (by decide)

/-! ## C7: there is no InvalidPlan validation -/

/-- C7 counterexample: at page count -1 and batch size 20 - inputs the claim
says must fail with InvalidPlan before any remote call - the job instead
falls through the (empty) batch loop and fails with the AllBatchesFailed
error of line 616, a different member of the spec's error taxonomy, even
though the remote oracle would succeed on any call (no attempt is made). -/
theorem invalid_plan_counterexample :
    extract_pdf_in_batches (fun _ _ => some "x") "f" (-1) 20 3 2 []
        = .error .allBatchesFailed ∧
    BatchJobError.allBatchesFailed ≠ BatchJobError.invalidPlan ∧
    (run_job (fun _ _ => some "x") "f" (-1) 20 3 2 []).attempts = [] := by
  refine ⟨rfl, by decide, rfl⟩

/-- C7 (amended): the source validates nothing: there is no InvalidPlan
error. A zero batch size raises a division error at the planning line,
before any remote call; a negative page count with a positive batch size
plans zero batches, makes no OCR attempt, and the job terminates with the
AllBatchesFailed error. -/
theorem no_invalid_plan_validation (oracle : Nat → Nat → Option String) (file_name : String)
    (total_pages batch_size : Int) (max_retries retry_delay : Nat)
    (prior : List (Nat × List String)) :
    (batch_size = 0 →
      extract_pdf_in_batches oracle file_name total_pages batch_size max_retries retry_delay prior
        = .error .zeroDivision) ∧
    (total_pages < 0 → 0 < batch_size →
      extract_pdf_in_batches oracle file_name total_pages batch_size max_retries retry_delay prior
          = .error .allBatchesFailed ∧
      (run_job oracle file_name total_pages batch_size max_retries retry_delay prior).attempts
          = [] ∧
      (run_job oracle file_name total_pages batch_size max_retries retry_delay prior).succeeded
          = []) := by
  constructor
  · intro h0
    unfold extract_pdf_in_batches
    rw [if_pos h0]
  · intro hP hpos
    have hn : (num_batches total_pages batch_size).toNat = 0 := by
      have hle : num_batches total_pages batch_size ≤ 0 := by
        unfold num_batches
        rw [Int.fdiv_eq_ediv _ hpos.le]
        have h1 : (total_pages + batch_size - 1) / batch_size < 1 := by
          rw [Int.ediv_lt_iff_lt_mul hpos]
          linarith
        omega
      omega
    have hjob : run_job oracle file_name total_pages batch_size max_retries retry_delay prior
        = init_state prior := by
      unfold run_job run_batches
      rw [hn]
      rfl
    refine ⟨?_, ?_, ?_⟩
    · unfold extract_pdf_in_batches
      rw [if_neg hpos.ne']
      rw [hjob]
      rfl
    · rw [hjob]
      rfl
    · rw [hjob]
      rfl

/-! ## C10: the extractor returns one non-empty text per success -/

/-- C10 (confirmed): every successful call of the OCR extractor returns a
list holding exactly one non-empty string; consequently the in-memory text
list gains exactly one marked text per succeeded batch, and the completion
banner's successful-batch count - `len(all_texts)` - equals the number of
batches that succeeded. -/
theorem extract_singleton_and_banner (file_name : String) :
    (∀ raw l, xunfei_extract file_name raw = .ok l →
        l.length = 1 ∧ ∀ t ∈ l, t ≠ "") ∧
    (∀ oracle : Nat → Nat → Option String, ∀ total_pages batch_size : Int,
      ∀ max_retries retry_delay : Nat, ∀ prior : List (Nat × List String),
      (run_job oracle file_name total_pages batch_size max_retries retry_delay prior).allTexts.length
          = (run_job oracle file_name total_pages batch_size max_retries retry_delay
              prior).succeeded.length ∧
      banner_count (run_job oracle file_name total_pages batch_size max_retries retry_delay prior)
          = (run_job oracle file_name total_pages batch_size max_retries retry_delay
              prior).succeeded.length) := by
  constructor
  · intro raw l h
    unfold xunfei_extract at h
    by_cases ht : py_strip raw = ""
    · rw [if_pos ht] at h
      exact Except.noConfusion h
    · rw [if_neg ht] at h
      injection h with h2
      subst h2
      refine ⟨rfl, ?_⟩
      intro t htl
      simp only [List.mem_singleton] at htl
      subst htl
      exact marked_pdf_text_ne_empty file_name raw
  · intro oracle total_pages batch_size max_retries retry_delay prior
    exact ⟨run_job_allTexts_length oracle file_name total_pages batch_size max_retries
        retry_delay prior,
      run_job_allTexts_length oracle file_name total_pages batch_size max_retries
        retry_delay prior⟩

end BatchOcr
